import Mathlib

/-!
Shallow embedding of the zkLove smart contract (Solidity source, `contract zkLove`).

Addresses, `bytes32` values and `uint256` values are modelled as `Nat`
(the zero address / zero digest is `0`).  Every external state-mutating
function is embedded as a function
`ContractState → caller → blockTimestamp → args → Except ContractError ContractState`,
with the `require` checks performed in the exact order the source performs
them (Solidity modifiers run left to right before the body).  A reverted call
leaves the state unchanged, which `applyCall` captures.
-/

namespace ZkLove

/-- `UserProfile` struct of the contract. -/
structure UserProfile where
  biometricCommitment : Nat
  preferencesHash : Nat
  auraPoints : Nat
  registrationTimestamp : Nat
  lastActiveTimestamp : Nat
  isActive : Bool
  isVerified : Bool
  totalMatches : Nat
  totalReveals : Nat
deriving DecidableEq, Repr

/-- Default (all-zero) mapping value for `UserProfile`. -/
def UserProfile.empty : UserProfile :=
  ⟨0, 0, 0, 0, 0, false, false, 0, 0⟩

/-- `MatchingSession` struct of the contract. -/
structure MatchingSession where
  user : Nat
  matchingHash : Nat
  auraThreshold : Nat
  timestamp : Nat
  isActive : Bool
deriving DecidableEq, Repr

/-- Default (all-zero) mapping value for `MatchingSession`. -/
def MatchingSession.empty : MatchingSession :=
  ⟨0, 0, 0, 0, false⟩

/-- `MutualMatch` struct of the contract. -/
structure MutualMatch where
  user1 : Nat
  user2 : Nat
  compatibilityScore : Nat
  matchTimestamp : Nat
  user1Revealed : Bool
  user2Revealed : Bool
  revealTimestamp : Nat
deriving DecidableEq, Repr

/-- Default (all-zero) mapping value for `MutualMatch`. -/
def MutualMatch.empty : MutualMatch :=
  ⟨0, 0, 0, 0, false, false, 0⟩

/-- `ZKProof` struct of the contract (proof elements plus public signals). -/
structure ZKProof where
  pi_a : Nat × Nat
  pi_b : (Nat × Nat) × (Nat × Nat)
  pi_c : Nat × Nat
  publicSignals : List Nat
deriving DecidableEq, Repr

/-- Error taxonomy: one constructor per distinct `require` message of the
source (plus `InvalidProof` from the error taxonomy of the design, which no
code path of the source ever raises). -/
inductive ContractError where
  | Paused
  | Unauthorized
  | NotRegistered
  | NotActive
  | AlreadyRegistered
  | InvalidCommitment
  | InvalidHash
  | SelfMatch
  | InactiveParticipant
  | InvalidScore
  | NotParticipant
  | NotFound
  | InvalidProof
deriving DecidableEq, Repr

/-- Point write to a mapping `Nat → α` (a Solidity storage write `m[k] = v`). -/
def updMap {α : Type} (f : Nat → α) (k : Nat) (v : α) : Nat → α :=
  fun a => if a = k then v else f a

/-- Point write to a nested mapping (`m[k1][k2] = v`). -/
def updMap2 (f : Nat → Nat → Bool) (k1 k2 : Nat) (v : Bool) : Nat → Nat → Bool :=
  fun a b => if a = k1 ∧ b = k2 then v else f a b

/-- Full storage of the contract. -/
structure ContractState where
  userProfiles : Nat → UserProfile
  matchingSessions : Nat → MatchingSession
  mutualMatches : Nat → MutualMatch
  hasRevealed : Nat → Nat → Bool
  owner : Nat
  totalUsers : Nat
  totalMatches : Nat
  totalReveals : Nat
  contractPaused : Bool

/-- Aura constant `REGISTRATION_AURA = 100`. -/
def REGISTRATION_AURA : Nat := 100

/-- Aura constant `MATCH_AURA = 75`. -/
def MATCH_AURA : Nat := 75

/-- Aura constant `REVEAL_AURA = 150`. -/
def REVEAL_AURA : Nat := 150

/-- Aura constant `VERIFICATION_AURA = 100`. -/
def VERIFICATION_AURA : Nat := 100

/-- State right after the constructor ran with deployer `deployer`. -/
def initialState (deployer : Nat) : ContractState where
  userProfiles := fun _ => UserProfile.empty
  matchingSessions := fun _ => MatchingSession.empty
  mutualMatches := fun _ => MutualMatch.empty
  hasRevealed := fun _ _ => false
  owner := deployer
  totalUsers := 0
  totalMatches := 0
  totalReveals := 0
  contractPaused := false

/-- `keccak256(abi.encodePacked(user1, user2, timestamp))` modelled as an
injective pairing on `Nat` (collision freedom of the hash is assumed). -/
def keccakPacked (user1 user2 timestamp : Nat) : Nat :=
  Nat.pair user1 (Nat.pair user2 timestamp)

/-- Result of a reverted call, `none` on success. -/
def errorOf (r : Except ContractError ContractState) : Option ContractError :=
  match r with
  | .ok _ => none
  | .error e => some e

/-- EVM revert semantics: a failed call leaves the storage untouched. -/
def applyCall (s : ContractState) (r : Except ContractError ContractState) :
    ContractState :=
  match r with
  | .ok s2 => s2
  | .error _ => s

/-- Mock verifier `verifyRegistrationProof` of the source: accepts exactly
when the proof has at least one public signal and the commitment is
non-zero.  (The source never calls it from `registerUser`.) -/
def verifyRegistrationProof (proof : ZKProof) (biometricCommitment : Nat) : Bool :=
  decide (proof.publicSignals.length > 0) && decide (biometricCommitment ≠ 0)

/-- `registerUser(biometricCommitment, preferencesHash, registrationProof)`.
Modifier: `whenNotPaused`.  The proof argument is accepted but never
inspected (proof verification is a TODO comment in the source). -/
def registerUser (s : ContractState) (sender blockTimestamp : Nat)
    (biometricCommitment preferencesHash : Nat) (registrationProof : ZKProof) :
    Except ContractError ContractState :=
  if s.contractPaused = true then .error .Paused
  else if (s.userProfiles sender).biometricCommitment ≠ 0 then .error .AlreadyRegistered
  else if biometricCommitment = 0 then .error .InvalidCommitment
  else .ok { s with
    userProfiles := updMap s.userProfiles sender
      { biometricCommitment := biometricCommitment
        preferencesHash := preferencesHash
        auraPoints := REGISTRATION_AURA
        registrationTimestamp := blockTimestamp
        lastActiveTimestamp := blockTimestamp
        isActive := true
        isVerified := false
        totalMatches := 0
        totalReveals := 0 }
    totalUsers := s.totalUsers + 1 }

/-- `submitMatchingProof(matchingHash, auraThreshold, matchingProof)`.
Modifiers in source order: `onlyRegisteredUser`, `onlyActiveUser`,
`whenNotPaused`.  The proof argument is never inspected (TODO in source). -/
def submitMatchingProof (s : ContractState) (sender blockTimestamp : Nat)
    (matchingHash auraThreshold : Nat) (matchingProof : ZKProof) :
    Except ContractError ContractState :=
  if (s.userProfiles sender).biometricCommitment = 0 then .error .NotRegistered
  else if (s.userProfiles sender).isActive = false then .error .NotActive
  else if s.contractPaused = true then .error .Paused
  else if matchingHash = 0 then .error .InvalidHash
  else .ok { s with
    matchingSessions := updMap s.matchingSessions matchingHash
      { user := sender
        matchingHash := matchingHash
        auraThreshold := auraThreshold
        timestamp := blockTimestamp
        isActive := true }
    userProfiles := updMap s.userProfiles sender
      { s.userProfiles sender with lastActiveTimestamp := blockTimestamp } }

/-- `recordMutualMatch(user1, user2, compatibilityScore, matchProof)`.
Modifiers in source order: `onlyOwner`, `whenNotPaused`.  The two profile
updates are sequential storage writes, mirrored by nested `updMap`. -/
def recordMutualMatch (s : ContractState) (sender blockTimestamp : Nat)
    (user1 user2 compatibilityScore : Nat) (matchProof : ZKProof) :
    Except ContractError ContractState :=
  if sender ≠ s.owner then .error .Unauthorized
  else if s.contractPaused = true then .error .Paused
  else if user1 = user2 then .error .SelfMatch
  else if ¬((s.userProfiles user1).isActive = true ∧
            (s.userProfiles user2).isActive = true) then .error .InactiveParticipant
  else if ¬(compatibilityScore ≤ 100) then .error .InvalidScore
  else
    let matchId := keccakPacked user1 user2 blockTimestamp
    let up1 := updMap s.userProfiles user1
      { s.userProfiles user1 with
        auraPoints := (s.userProfiles user1).auraPoints + MATCH_AURA
        totalMatches := (s.userProfiles user1).totalMatches + 1 }
    let up2 := updMap up1 user2
      { up1 user2 with
        auraPoints := (up1 user2).auraPoints + MATCH_AURA
        totalMatches := (up1 user2).totalMatches + 1 }
    .ok { s with
      mutualMatches := updMap s.mutualMatches matchId
        { user1 := user1
          user2 := user2
          compatibilityScore := compatibilityScore
          matchTimestamp := blockTimestamp
          user1Revealed := false
          user2Revealed := false
          revealTimestamp := 0 }
      userProfiles := up2
      totalMatches := s.totalMatches + 1 }

/-- `initiateIdentityReveal(matchId, revealCommitments, unlockProof)`.
Modifiers in source order: `onlyRegisteredUser`, `whenNotPaused`.  The
source checks participation (line 290) BEFORE existence (line 291).  Note
the body has no guard on `revealTimestamp`: whenever both reveal flags are
true after the flag write, the reward block runs again.  The final
`hasRevealed` write chooses the recipient by comparing `matchId` with the
recomputed hash of the stored match fields, ignoring the caller. -/
def initiateIdentityReveal (s : ContractState) (sender blockTimestamp : Nat)
    (matchId : Nat) (revealCommitments : List Nat) (unlockProof : ZKProof) :
    Except ContractError ContractState :=
  if (s.userProfiles sender).biometricCommitment = 0 then .error .NotRegistered
  else if s.contractPaused = true then .error .Paused
  else
    let m := s.mutualMatches matchId
    if ¬(m.user1 = sender ∨ m.user2 = sender) then .error .NotParticipant
    else if ¬(m.matchTimestamp > 0) then .error .NotFound
    else
      let m1 := if m.user1 = sender
        then { m with user1Revealed := true }
        else { m with user2Revealed := true }
      let s1 := { s with mutualMatches := updMap s.mutualMatches matchId m1 }
      let s2 :=
        if m1.user1Revealed = true ∧ m1.user2Revealed = true then
          let m2 := { m1 with revealTimestamp := blockTimestamp }
          let up1 := updMap s1.userProfiles m1.user1
            { s1.userProfiles m1.user1 with
              auraPoints := (s1.userProfiles m1.user1).auraPoints + REVEAL_AURA
              totalReveals := (s1.userProfiles m1.user1).totalReveals + 1 }
          let up2 := updMap up1 m1.user2
            { up1 m1.user2 with
              auraPoints := (up1 m1.user2).auraPoints + REVEAL_AURA
              totalReveals := (up1 m1.user2).totalReveals + 1 }
          { s1 with
            mutualMatches := updMap s1.mutualMatches matchId m2
            userProfiles := up2
            totalReveals := s1.totalReveals + 1 }
        else s1
      let recipient := if matchId = keccakPacked m1.user1 m1.user2 m1.matchTimestamp
        then m1.user1 else m1.user2
      .ok { s2 with
        hasRevealed := updMap2 s2.hasRevealed sender recipient true }

/-- `awardBonusAura(user, points, reason)`.  Modifiers: `onlyOwner`,
`whenNotPaused`. -/
def awardBonusAura (s : ContractState) (sender : Nat) (user points : Nat)
    (reason : String) : Except ContractError ContractState :=
  if sender ≠ s.owner then .error .Unauthorized
  else if s.contractPaused = true then .error .Paused
  else if (s.userProfiles user).biometricCommitment = 0 then .error .NotRegistered
  else .ok { s with
    userProfiles := updMap s.userProfiles user
      { s.userProfiles user with
        auraPoints := (s.userProfiles user).auraPoints + points } }

/-- `deductAura(user, points, reason)`.  Modifiers: `onlyOwner`,
`whenNotPaused`.  Deduction clamps at zero. -/
def deductAura (s : ContractState) (sender : Nat) (user points : Nat)
    (reason : String) : Except ContractError ContractState :=
  if sender ≠ s.owner then .error .Unauthorized
  else if s.contractPaused = true then .error .Paused
  else if (s.userProfiles user).biometricCommitment = 0 then .error .NotRegistered
  else if (s.userProfiles user).auraPoints ≥ points then
    .ok { s with
      userProfiles := updMap s.userProfiles user
        { s.userProfiles user with
          auraPoints := (s.userProfiles user).auraPoints - points } }
  else
    .ok { s with
      userProfiles := updMap s.userProfiles user
        { s.userProfiles user with auraPoints := 0 } }

/-- `setPaused(paused)`.  Modifier: `onlyOwner` (note: no `whenNotPaused`). -/
def setPaused (s : ContractState) (sender : Nat) (paused : Bool) :
    Except ContractError ContractState :=
  if sender ≠ s.owner then .error .Unauthorized
  else .ok { s with contractPaused := paused }

/-- View `getUserProfile(user)`. -/
def getUserProfile (s : ContractState) (user : Nat) : UserProfile :=
  s.userProfiles user

/-- View `getMatchingSession(matchingHash)`. -/
def getMatchingSession (s : ContractState) (matchingHash : Nat) : MatchingSession :=
  s.matchingSessions matchingHash

/-- View `getMutualMatch(matchId)`. -/
def getMutualMatch (s : ContractState) (matchId : Nat) : MutualMatch :=
  s.mutualMatches matchId

/-- View `hasUserRevealed(revealer, recipient)`. -/
def hasUserRevealed (s : ContractState) (revealer recipient : Nat) : Bool :=
  s.hasRevealed revealer recipient

/-- View `getContractStats()`. -/
def getContractStats (s : ContractState) : Nat × Nat × Nat :=
  (s.totalUsers, s.totalMatches, s.totalReveals)

/-! Concrete execution trace used by several theorems below: the contract is
deployed by principal `0`; principals `1` and `2` register, the owner records
a mutual match between them, and then reveals happen in the order
`1`, `2`, `1` again. -/

/-- A proof blob the mock verifiers accept (one public signal). -/
def pf0 : ZKProof :=
  ⟨(0, 0), ((0, 0), (0, 0)), (0, 0), [1]⟩

/-- A proof blob the mock verifiers reject (no public signals). -/
def emptyProof : ZKProof :=
  ⟨(0, 0), ((0, 0), (0, 0)), (0, 0), []⟩

/-- Fresh deployment by principal `0`. -/
def demoS0 : ContractState := initialState 0

/-- After `1` registers (t = 10, commitment 1). -/
def demoS1 : ContractState :=
  applyCall demoS0 (registerUser demoS0 1 10 1 0 pf0)

/-- After `2` registers (t = 11, commitment 2). -/
def demoS2 : ContractState :=
  applyCall demoS1 (registerUser demoS1 2 11 2 0 pf0)

/-- After the owner records the mutual match `(1, 2)` with score 50 at t = 20. -/
def demoS3 : ContractState :=
  applyCall demoS2 (recordMutualMatch demoS2 0 20 1 2 50 pf0)

/-- Identifier under which the match `(1, 2, 20)` is stored. -/
def demoMatchId : Nat := keccakPacked 1 2 20

/-- After principal `1` reveals (t = 30). -/
def demoS4 : ContractState :=
  applyCall demoS3 (initiateIdentityReveal demoS3 1 30 demoMatchId [] pf0)

/-- After principal `2` reveals (t = 31): both sides revealed. -/
def demoS5 : ContractState :=
  applyCall demoS4 (initiateIdentityReveal demoS4 2 31 demoMatchId [] pf0)

/-- After principal `1` calls reveal once more (t = 40). -/
def demoS6 : ContractState :=
  applyCall demoS5 (initiateIdentityReveal demoS5 1 40 demoMatchId [] pf0)

/-- The owner pauses the contract after the two registrations. -/
def pausedS : ContractState :=
  applyCall demoS2 (setPaused demoS2 0 true)

/-- After principal `1` submits an intent under commitment `7` (t = 12). -/
def ovS1 : ContractState :=
  applyCall demoS2 (submitMatchingProof demoS2 1 12 7 5 pf0)

/-- After principal `2` submits an intent under the same commitment `7` (t = 13). -/
def ovS2 : ContractState :=
  applyCall ovS1 (submitMatchingProof ovS1 2 13 7 9 pf0)

/-- A reverted call leaves the state unchanged. -/
theorem applyCall_of_isSome (s : ContractState) (r : Except ContractError ContractState)
    (h : (errorOf r).isSome = true) : applyCall s r = s := by
  cases r with
  | ok a => simp [errorOf] at h
  | error e => rfl

/-- C1: on the trace where the match `(1, 2)` is revealed by `1` (t = 30), by
`2` (t = 31), and then again by `1` (t = 40), the second reveal credits
`REVEAL_AURA` to both and stamps `revealTimestamp = 31`, but the third call —
contrary to the claim that no later call changes the timestamp or credits
again — succeeds, credits both participants another `REVEAL_AURA`, rewrites
`revealTimestamp` to `40`, and bumps the global reveal counter to `2`. -/
theorem C1_third_reveal_call_credits_again :
    (demoS5.userProfiles 1).auraPoints = REGISTRATION_AURA + MATCH_AURA + REVEAL_AURA ∧
    (demoS5.userProfiles 2).auraPoints = REGISTRATION_AURA + MATCH_AURA + REVEAL_AURA ∧
    (demoS5.mutualMatches demoMatchId).revealTimestamp = 31 ∧
    errorOf (initiateIdentityReveal demoS5 1 40 demoMatchId [] pf0) = none ∧
    (demoS6.userProfiles 1).auraPoints
      = REGISTRATION_AURA + MATCH_AURA + REVEAL_AURA + REVEAL_AURA ∧
    (demoS6.userProfiles 2).auraPoints
      = REGISTRATION_AURA + MATCH_AURA + REVEAL_AURA + REVEAL_AURA ∧
    (demoS6.mutualMatches demoMatchId).revealTimestamp = 40 ∧
    demoS6.totalReveals = 2 := by decide

/-- C2: principal `1` has already revealed in `demoS4`, yet its repeated
reveal call on the same match (after `2` also revealed) is not a no-op: it
succeeds and credits another `REVEAL_AURA` and another reveal count to `1`
(and likewise to `2`), because the reward block has no guard on
`revealTimestamp`. -/
theorem C2_second_reveal_by_same_principal_recredits :
    (demoS4.mutualMatches demoMatchId).user1Revealed = true ∧
    errorOf (initiateIdentityReveal demoS5 1 40 demoMatchId [] pf0) = none ∧
    (demoS6.userProfiles 1).auraPoints = (demoS5.userProfiles 1).auraPoints + REVEAL_AURA ∧
    (demoS6.userProfiles 1).totalReveals = (demoS5.userProfiles 1).totalReveals + 1 := by decide

/-- C4: after principal `1` (stored as `user1`) successfully reveals on the
match with `2`, the flag `user1Revealed` is set, but `hasUserRevealed 1 2`
is still `false`: the source records `hasRevealed[1][1]` instead, because
the recipient is computed from the hash comparison and not from the caller.
The symmetric direction for `user2` does hold (`hasUserRevealed 2 1` after
the reveal of `2`). -/
theorem C4_reveal_record_wrong_recipient :
    (demoS4.mutualMatches demoMatchId).user1Revealed = true ∧
    hasUserRevealed demoS4 1 2 = false ∧
    demoS4.hasRevealed 1 1 = true ∧
    hasUserRevealed demoS5 2 1 = true := by decide

/-- C3 counterexample: `emptyProof` is rejected by the registration
verifier, yet `registerUser` succeeds with it and stores the profile — the
source never invokes the verifier (TODO), so the claimed `InvalidProof`
failure does not happen. -/
theorem C3_cex_register_accepts_rejected_proof :
    verifyRegistrationProof emptyProof 1 = false ∧
    errorOf (registerUser demoS0 1 10 1 0 emptyProof) = none ∧
    ((applyCall demoS0 (registerUser demoS0 1 10 1 0 emptyProof)).userProfiles 1).biometricCommitment
      = 1 := by decide

/-- C5 counterexample: principal `1` is registered and `demoS2` stores no
match under id `999` (its `matchTimestamp` is `0`), yet the reveal call
fails with `NotParticipant`, not with the claimed `NotFound`. -/
theorem C5_cex_unknown_match_reports_not_participant :
    (demoS2.userProfiles 1).biometricCommitment ≠ 0 ∧
    (demoS2.mutualMatches 999).matchTimestamp = 0 ∧
    errorOf (initiateIdentityReveal demoS2 1 30 999 [] pf0)
      = some ContractError.NotParticipant := by decide

/-- C9 counterexample: `pausedS` is paused, yet the unregistered principal
`5` calling `submitMatchingProof` gets `NotRegistered`, not the claimed
`Paused` — the `onlyRegisteredUser` modifier runs before `whenNotPaused`. -/
theorem C9_cex_paused_submit_reports_not_registered :
    pausedS.contractPaused = true ∧
    (pausedS.userProfiles 5).biometricCommitment = 0 ∧
    errorOf (submitMatchingProof pausedS 5 50 7 0 pf0)
      = some ContractError.NotRegistered := by decide

/-- C10: in the reachable state `demoS2` both `1` and `2` are registered and
active; `1` submits an intent under commitment `7`, then `2` submits under
the same commitment, and the stored session now has owner `2`, threshold
`9`, and timestamp `13` — the submission of `2` silently replaced the
intent of `1` with no ownership check. -/
theorem C10_intent_silently_replaced :
    (demoS2.userProfiles 1).biometricCommitment ≠ 0 ∧
    (demoS2.userProfiles 2).biometricCommitment ≠ 0 ∧
    (demoS2.userProfiles 1).isActive = true ∧
    (demoS2.userProfiles 2).isActive = true ∧
    errorOf (submitMatchingProof demoS2 1 12 7 5 pf0) = none ∧
    (ovS1.matchingSessions 7).user = 1 ∧
    (ovS1.matchingSessions 7).auraThreshold = 5 ∧
    (ovS1.matchingSessions 7).timestamp = 12 ∧
    errorOf (submitMatchingProof ovS1 2 13 7 9 pf0) = none ∧
    (ovS2.matchingSessions 7).user = 2 ∧
    (ovS2.matchingSessions 7).auraThreshold = 9 ∧
    (ovS2.matchingSessions 7).timestamp = 13 := by decide

/-- C3 (amended): `registerUser` performs no proof verification at all: its
result is the same for any two proof arguments, and whenever the caller is
unregistered, the contract is unpaused and the commitment is non-zero it
succeeds — even with a proof the Verifier rejects — so no `InvalidProof`
failure exists. -/
theorem C3_register_ignores_proof (s : ContractState)
    (sender blockTimestamp bc ph : Nat) (p q : ZKProof)
    (hpause : s.contractPaused = false)
    (hfree : (s.userProfiles sender).biometricCommitment = 0)
    (hbc : bc ≠ 0) :
    registerUser s sender blockTimestamp bc ph p
      = registerUser s sender blockTimestamp bc ph q ∧
    errorOf (registerUser s sender blockTimestamp bc ph p) = none := by
  refine ⟨rfl, ?_⟩
  simp [registerUser, errorOf, hpause, hfree, hbc]

/-- Witness for C3: a fresh registration with the rejected `emptyProof`
behaves exactly as with the accepted `pf0` and succeeds. -/
theorem C3_register_ignores_proof_witness :
    registerUser demoS0 1 10 1 0 emptyProof = registerUser demoS0 1 10 1 0 pf0 ∧
    errorOf (registerUser demoS0 1 10 1 0 emptyProof) = none :=
  C3_register_ignores_proof demoS0 1 10 1 0 emptyProof pf0 rfl rfl (by decide)

/-- C6: if a registration by `sender` succeeds, then a second `registerUser`
call by the same `sender` — with any arguments whatsoever — fails with
`AlreadyRegistered`, and the storage after the failed call is exactly the
storage after the first successful call. -/
theorem C6_second_registration_rejected (s s2 : ContractState)
    (sender t1 bc1 ph1 : Nat) (p1 : ZKProof)
    (t2 bc2 ph2 : Nat) (p2 : ZKProof)
    (h : registerUser s sender t1 bc1 ph1 p1 = .ok s2) :
    errorOf (registerUser s2 sender t2 bc2 ph2 p2)
      = some ContractError.AlreadyRegistered ∧
    applyCall s2 (registerUser s2 sender t2 bc2 ph2 p2) = s2 := by
  unfold registerUser at h
  by_cases hp : s.contractPaused = true
  · simp [hp] at h
  · by_cases hr : (s.userProfiles sender).biometricCommitment ≠ 0
    · simp [hp, hr] at h
    · by_cases hb : bc1 = 0
      · simp [hp, hr, hb] at h
      · simp [hp, hr, hb] at h
        subst h
        constructor
        · simp [registerUser, errorOf, hp, updMap, hb]
        · simp [registerUser, errorOf, applyCall, hp, updMap, hb]

/-- Witness for C6: principal `1` registered in `demoS1`; a second attempt
with different arguments fails with `AlreadyRegistered` and leaves the
state as it was. -/
theorem C6_second_registration_rejected_witness :
    errorOf (registerUser demoS1 1 99 5 6 pf0)
      = some ContractError.AlreadyRegistered ∧
    applyCall demoS1 (registerUser demoS1 1 99 5 6 pf0) = demoS1 :=
  C6_second_registration_rejected demoS0 demoS1 1 10 1 0 pf0 99 5 6 pf0 rfl

/-- C5 (amended): `initiateIdentityReveal` checks participation before
existence.  A registered caller on an unpaused contract gets
`NotParticipant` whenever the stored record under `matchId` lists it as
neither side — in particular for any unknown `matchId`, whose record is the
all-zero struct and a non-zero caller matches neither field — and `NotFound`
is reported only when the caller equals a stored participant of a record
whose `matchTimestamp` is zero. -/
theorem C5_participation_checked_before_existence (s : ContractState)
    (sender blockTimestamp matchId : Nat) (rc : List Nat) (pf : ZKProof)
    (hreg : (s.userProfiles sender).biometricCommitment ≠ 0)
    (hpause : s.contractPaused = false) :
    ((s.mutualMatches matchId).user1 ≠ sender →
      (s.mutualMatches matchId).user2 ≠ sender →
      errorOf (initiateIdentityReveal s sender blockTimestamp matchId rc pf)
        = some ContractError.NotParticipant) ∧
    (((s.mutualMatches matchId).user1 = sender ∨
        (s.mutualMatches matchId).user2 = sender) →
      (s.mutualMatches matchId).matchTimestamp = 0 →
      errorOf (initiateIdentityReveal s sender blockTimestamp matchId rc pf)
        = some ContractError.NotFound) := by
  constructor
  · intro h1 h2
    simp [initiateIdentityReveal, errorOf, hreg, hpause, h1, h2]
  · intro hpart hts
    rcases hpart with h | h <;>
      simp [initiateIdentityReveal, errorOf, hreg, hpause, h, hts]

/-- Witness for C5: the registered principal `1` asking to reveal on the
unknown match id `999` in `demoS2` is told `NotParticipant`. -/
theorem C5_participation_checked_before_existence_witness :
    errorOf (initiateIdentityReveal demoS2 1 30 999 [] pf0)
      = some ContractError.NotParticipant :=
  (C5_participation_checked_before_existence demoS2 1 30 999 [] pf0
    (by decide) rfl).1 (by decide) (by decide)

/-- C8: on an unpaused contract the owner deducting from a registered
profile always succeeds, the new balance is the old one minus
`min points balance` (so it never goes below zero), and a deduction larger
than the balance leaves exactly zero. -/
theorem C8_deduction_clamps_at_zero (s : ContractState) (user points : Nat)
    (reason : String)
    (hpause : s.contractPaused = false)
    (hreg : (s.userProfiles user).biometricCommitment ≠ 0) :
    errorOf (deductAura s s.owner user points reason) = none ∧
    ((applyCall s (deductAura s s.owner user points reason)).userProfiles user).auraPoints
      = (s.userProfiles user).auraPoints - min points (s.userProfiles user).auraPoints ∧
    ((s.userProfiles user).auraPoints < points →
      ((applyCall s (deductAura s s.owner user points reason)).userProfiles user).auraPoints
        = 0) := by
  by_cases hge : (s.userProfiles user).auraPoints ≥ points
  · refine ⟨?_, ?_, ?_⟩ <;>
      simp [deductAura, errorOf, applyCall, hpause, hreg, hge, updMap] <;>
      omega
  · refine ⟨?_, ?_, ?_⟩ <;>
      simp [deductAura, errorOf, applyCall, hpause, hreg, hge, updMap] <;>
      omega

/-- Witness for C8: deducting `1000` from the balance `175` of principal `1`
in `demoS3` succeeds and leaves exactly zero. -/
theorem C8_deduction_clamps_at_zero_witness :
    errorOf (deductAura demoS3 demoS3.owner 1 1000 "penalty") = none ∧
    ((applyCall demoS3 (deductAura demoS3 demoS3.owner 1 1000 "penalty")).userProfiles 1).auraPoints
      = 0 := by
  have H := C8_deduction_clamps_at_zero demoS3 1 1000 "penalty" rfl (by decide)
  exact ⟨H.1, H.2.2 (by decide)⟩

/-- C7: for an owner call on an unpaused contract, `recordMutualMatch`
fails with `SelfMatch` when the two principals coincide, with
`InactiveParticipant` when they differ but are not both active, with
`InvalidScore` when the score exceeds `100`, and succeeds otherwise; and
whenever it succeeds, each participant gains exactly `MATCH_AURA` aura and
one `totalMatches`, and the global match counter grows by one. -/
theorem C7_record_match_checks_and_increments (s : ContractState)
    (blockTimestamp user1 user2 score : Nat) (pf : ZKProof)
    (hpause : s.contractPaused = false) :
    errorOf (recordMutualMatch s s.owner blockTimestamp user1 user2 score pf)
      = (if user1 = user2 then some ContractError.SelfMatch
         else if ¬((s.userProfiles user1).isActive = true ∧
                   (s.userProfiles user2).isActive = true)
           then some ContractError.InactiveParticipant
         else if ¬(score ≤ 100) then some ContractError.InvalidScore
         else none) ∧
    (errorOf (recordMutualMatch s s.owner blockTimestamp user1 user2 score pf) = none →
      ((applyCall s (recordMutualMatch s s.owner blockTimestamp user1 user2 score pf)).userProfiles
          user1).auraPoints = (s.userProfiles user1).auraPoints + MATCH_AURA ∧
      ((applyCall s (recordMutualMatch s s.owner blockTimestamp user1 user2 score pf)).userProfiles
          user2).auraPoints = (s.userProfiles user2).auraPoints + MATCH_AURA ∧
      ((applyCall s (recordMutualMatch s s.owner blockTimestamp user1 user2 score pf)).userProfiles
          user1).totalMatches = (s.userProfiles user1).totalMatches + 1 ∧
      ((applyCall s (recordMutualMatch s s.owner blockTimestamp user1 user2 score pf)).userProfiles
          user2).totalMatches = (s.userProfiles user2).totalMatches + 1 ∧
      (applyCall s (recordMutualMatch s s.owner blockTimestamp user1 user2 score pf)).totalMatches
        = s.totalMatches + 1) := by
  by_cases h1 : user1 = user2
  · constructor
    · simp [recordMutualMatch, errorOf, hpause, h1]
    · intro hok
      simp [recordMutualMatch, errorOf, hpause, h1] at hok
  · have h1s : ¬(user2 = user1) := fun hh => h1 hh.symm
    by_cases h2 : (s.userProfiles user1).isActive = true ∧
        (s.userProfiles user2).isActive = true
    · by_cases h3 : score ≤ 100
      · constructor
        · simp [recordMutualMatch, errorOf, hpause, h1, h2, h3]
        · intro hok
          refine ⟨?_, ?_, ?_, ?_, ?_⟩ <;>
            simp [recordMutualMatch, errorOf, applyCall, hpause, h1, h1s, h2, h3, updMap]
      · constructor
        · simp [recordMutualMatch, errorOf, hpause, h1, h2, h3]
        · intro hok
          simp [recordMutualMatch, errorOf, hpause, h1, h2, h3] at hok
    · constructor
      · simp [recordMutualMatch, errorOf, hpause, h1, h2]
      · intro hok
        simp [recordMutualMatch, errorOf, hpause, h1, h2] at hok

/-- Witness for C7: the owner records the match `(1, 2)` with score `50` in
`demoS2`; the call succeeds, principal `1` gains `MATCH_AURA`, and the
global match counter grows by one. -/
theorem C7_record_match_checks_and_increments_witness :
    errorOf (recordMutualMatch demoS2 demoS2.owner 20 1 2 50 pf0) = none ∧
    ((applyCall demoS2 (recordMutualMatch demoS2 demoS2.owner 20 1 2 50 pf0)).userProfiles
        1).auraPoints = (demoS2.userProfiles 1).auraPoints + MATCH_AURA ∧
    (applyCall demoS2 (recordMutualMatch demoS2 demoS2.owner 20 1 2 50 pf0)).totalMatches
      = demoS2.totalMatches + 1 := by
  have H := C7_record_match_checks_and_increments demoS2 20 1 2 50 pf0 rfl
  have hnone : errorOf (recordMutualMatch demoS2 demoS2.owner 20 1 2 50 pf0) = none :=
    H.1.trans (by decide)
  exact ⟨hnone, (H.2 hnone).1, (H.2 hnone).2.2.2.2⟩

/-- C9 (amended): with the pause flag set, all six mutating operations fail
and leave the storage untouched; the error is `Paused` exactly when the
modifiers that run before `whenNotPaused` pass (always for `registerUser`;
for `submitMatchingProof` when the caller is registered and active; for
`initiateIdentityReveal` when registered; for the three admin operations
when the caller is the owner) and is that earlier modifier error otherwise.
The read-only queries still answer from the stored state. -/
theorem C9_pause_gate (s : ContractState) (sender blockTimestamp a b c : Nat)
    (pf : ZKProof) (rc : List Nat) (reason : String)
    (h : s.contractPaused = true) :
    errorOf (registerUser s sender blockTimestamp a b pf) = some ContractError.Paused ∧
    (errorOf (submitMatchingProof s sender blockTimestamp a b pf)).isSome = true ∧
    ((s.userProfiles sender).biometricCommitment ≠ 0 →
      (s.userProfiles sender).isActive = true →
      errorOf (submitMatchingProof s sender blockTimestamp a b pf)
        = some ContractError.Paused) ∧
    (errorOf (recordMutualMatch s sender blockTimestamp a b c pf)).isSome = true ∧
    (sender = s.owner →
      errorOf (recordMutualMatch s sender blockTimestamp a b c pf)
        = some ContractError.Paused) ∧
    (errorOf (initiateIdentityReveal s sender blockTimestamp a rc pf)).isSome = true ∧
    ((s.userProfiles sender).biometricCommitment ≠ 0 →
      errorOf (initiateIdentityReveal s sender blockTimestamp a rc pf)
        = some ContractError.Paused) ∧
    (errorOf (awardBonusAura s sender a b reason)).isSome = true ∧
    (sender = s.owner →
      errorOf (awardBonusAura s sender a b reason) = some ContractError.Paused) ∧
    (errorOf (deductAura s sender a b reason)).isSome = true ∧
    (sender = s.owner →
      errorOf (deductAura s sender a b reason) = some ContractError.Paused) ∧
    applyCall s (registerUser s sender blockTimestamp a b pf) = s ∧
    applyCall s (submitMatchingProof s sender blockTimestamp a b pf) = s ∧
    applyCall s (recordMutualMatch s sender blockTimestamp a b c pf) = s ∧
    applyCall s (initiateIdentityReveal s sender blockTimestamp a rc pf) = s ∧
    applyCall s (awardBonusAura s sender a b reason) = s ∧
    applyCall s (deductAura s sender a b reason) = s ∧
    getUserProfile s a = s.userProfiles a ∧
    getMatchingSession s a = s.matchingSessions a ∧
    getMutualMatch s a = s.mutualMatches a ∧
    hasUserRevealed s a b = s.hasRevealed a b ∧
    getContractStats s = (s.totalUsers, s.totalMatches, s.totalReveals) := by
  have hreg1 : errorOf (registerUser s sender blockTimestamp a b pf)
      = some ContractError.Paused := by
    simp [registerUser, errorOf, h]
  have hsub : (errorOf (submitMatchingProof s sender blockTimestamp a b pf)).isSome
      = true := by
    by_cases h1 : (s.userProfiles sender).biometricCommitment = 0
    · simp [submitMatchingProof, errorOf, h1]
    · by_cases h2 : (s.userProfiles sender).isActive = false
      · simp [submitMatchingProof, errorOf, h1, h2]
      · simp [submitMatchingProof, errorOf, h1, h2, h]
  have hsubp : (s.userProfiles sender).biometricCommitment ≠ 0 →
      (s.userProfiles sender).isActive = true →
      errorOf (submitMatchingProof s sender blockTimestamp a b pf)
        = some ContractError.Paused := by
    intro h1 h2
    simp [submitMatchingProof, errorOf, h1, h2, h]
  have hrec : (errorOf (recordMutualMatch s sender blockTimestamp a b c pf)).isSome
      = true := by
    by_cases h1 : sender = s.owner
    · simp [recordMutualMatch, errorOf, h1, h]
    · simp [recordMutualMatch, errorOf, h1]
  have hrecp : sender = s.owner →
      errorOf (recordMutualMatch s sender blockTimestamp a b c pf)
        = some ContractError.Paused := by
    intro h1
    simp [recordMutualMatch, errorOf, h1, h]
  have hrev : (errorOf (initiateIdentityReveal s sender blockTimestamp a rc pf)).isSome
      = true := by
    by_cases h1 : (s.userProfiles sender).biometricCommitment = 0
    · simp [initiateIdentityReveal, errorOf, h1]
    · simp [initiateIdentityReveal, errorOf, h1, h]
  have hrevp : (s.userProfiles sender).biometricCommitment ≠ 0 →
      errorOf (initiateIdentityReveal s sender blockTimestamp a rc pf)
        = some ContractError.Paused := by
    intro h1
    simp [initiateIdentityReveal, errorOf, h1, h]
  have haw : (errorOf (awardBonusAura s sender a b reason)).isSome = true := by
    by_cases h1 : sender = s.owner
    · simp [awardBonusAura, errorOf, h1, h]
    · simp [awardBonusAura, errorOf, h1]
  have hawp : sender = s.owner →
      errorOf (awardBonusAura s sender a b reason) = some ContractError.Paused := by
    intro h1
    simp [awardBonusAura, errorOf, h1, h]
  have hde : (errorOf (deductAura s sender a b reason)).isSome = true := by
    by_cases h1 : sender = s.owner
    · simp [deductAura, errorOf, h1, h]
    · simp [deductAura, errorOf, h1]
  have hdep : sender = s.owner →
      errorOf (deductAura s sender a b reason) = some ContractError.Paused := by
    intro h1
    simp [deductAura, errorOf, h1, h]
  refine ⟨hreg1, hsub, hsubp, hrec, hrecp, hrev, hrevp, haw, hawp, hde, hdep,
    applyCall_of_isSome _ _ (by simp [hreg1]),
    applyCall_of_isSome _ _ hsub,
    applyCall_of_isSome _ _ hrec,
    applyCall_of_isSome _ _ hrev,
    applyCall_of_isSome _ _ haw,
    applyCall_of_isSome _ _ hde,
    rfl, rfl, rfl, rfl, rfl⟩

/-- Witness for C9: in the reachable paused state `pausedS`, an owner call
to each of registration, match recording and deduction fails with `Paused`
and the state is untouched. -/
theorem C9_pause_gate_witness :
    errorOf (registerUser pausedS 0 50 1 2 pf0) = some ContractError.Paused ∧
    errorOf (recordMutualMatch pausedS 0 50 1 2 60 pf0) = some ContractError.Paused ∧
    errorOf (deductAura pausedS 0 1 2 "pen") = some ContractError.Paused ∧
    applyCall pausedS (registerUser pausedS 0 50 1 2 pf0) = pausedS := by
  have H := C9_pause_gate pausedS 0 50 1 2 60 pf0 [] "pen" rfl
  exact ⟨H.1, H.2.2.2.2.1 rfl, H.2.2.2.2.2.2.2.2.2.2.1 rfl,
    H.2.2.2.2.2.2.2.2.2.2.2.1⟩

end ZkLove
